import Mathlib

/-!
Verification of the trust-policy rule predicates of
`security_monkey/auditors/iam/iam_role.py` (class `IAMRoleAuditor`):
`check_star_assume_role_policy` and `check_assume_role_from_unknown_account`.

The Python values flowing through these functions (parsed JSON policy
documents) are embedded as the inductive type `PyVal`.  Python dictionaries
are association lists in insertion order with string keys (the only keys
used by the code), and `dict.get(k, d)` takes the first binding of `k`.
Attribute errors and type errors that Python would raise (e.g. calling
`.get` on a non-dict, iterating a non-iterable) are made explicit: each
check returns the ordered list of `add_issue` emissions made before any
exception, together with an `Option String` that is `some e` exactly when
an exception `e` escapes to the caller.
-/

namespace SecurityMonkey

/-- Embedding of the Python/JSON values handled by the auditor:
`None`, booleans, integers, strings, lists and string-keyed dicts
(in insertion order). -/
inductive PyVal where
  | none
  | bool (b : Bool)
  | int (n : Int)
  | str (s : String)
  | list (xs : List PyVal)
  | dict (kvs : List (String × PyVal))
deriving Repr

/-- Python truthiness of a value (`if x:`). -/
def PyVal.truthy : PyVal → Bool
  | .none => false
  | .bool b => b
  | .int n => n != 0
  | .str s => !s.isEmpty
  | .list xs => !xs.isEmpty
  | .dict kvs => !kvs.isEmpty

/-- Python equality `v == s` against a string literal `s`:
true exactly when `v` is the string `s`. -/
def pyEqStr (v : PyVal) (s : String) : Bool :=
  match v with
  | .str t => t == s
  | _ => false

/-- First binding of key `k` in an association list (Python dict lookup). -/
def alistFind (kvs : List (String × PyVal)) (k : String) : Option PyVal :=
  (kvs.find? (fun kv => kv.1 == k)).map (fun kv => kv.2)

/-- Python `d.get(k, default)` on a dict represented as an association list. -/
def dictGet (kvs : List (String × PyVal)) (k : String) (default : PyVal) : PyVal :=
  (alistFind kvs k).getD default

/-- Python `v.get(k, default)` on an arbitrary value: raises
`AttributeError` when `v` is not a dict. -/
def PyVal.get (v : PyVal) (k : String) (default : PyVal) : Except String PyVal :=
  match v with
  | .dict kvs => .ok (dictGet kvs k default)
  | _ => .error "AttributeError: object has no attribute get"

/-- `type(v) is dict` in Python. -/
def PyVal.isDict : PyVal → Bool
  | .dict _ => true
  | _ => false

/-- `type(v) is list` in Python. -/
def PyVal.isList : PyVal → Bool
  | .list _ => true
  | _ => false

/-- Python iteration `for x in v`: a list yields its elements, a string
yields its characters as one-character strings, a dict yields its keys;
any other value raises `TypeError`. -/
def pyIter : PyVal → Except String (List PyVal)
  | .list xs => .ok xs
  | .str s => .ok (s.data.map (fun c => .str (String.mk [c])))
  | .dict kvs => .ok (kvs.map (fun kv => .str kv.1))
  | _ => .error "TypeError: object is not iterable"

/-- Escape of one character inside a JSON string literal, as `json.dumps`
produces it for the ASCII inputs handled here. -/
def jsonEscapeChar (c : Char) : String :=
  if c = '"' then "\\\""
  else if c = '\\' then "\\\\"
  else if c = '\n' then "\\n"
  else if c = '\t' then "\\t"
  else if c = '\r' then "\\r"
  else String.mk [c]

/-- Serialization of one JSON string literal, as `json.dumps` writes it. -/
def dumpsStr (s : String) : String :=
  "\"" ++ String.join (s.data.map jsonEscapeChar) ++ "\""

mutual

/-- Embedding of `json.dumps` (default separators, insertion-order dicts)
on the ASCII value subset the auditor serializes as issue notes. -/
def dumps : PyVal → String
  | .none => "null"
  | .bool true => "true"
  | .bool false => "false"
  | .int n => toString n
  | .str s => dumpsStr s
  | .list xs => "[" ++ dumpsElems xs ++ "]"
  | .dict kvs => "\x7b" ++ dumpsMembers kvs ++ "\x7d"

/-- Comma-separated serialization of JSON array elements. -/
def dumpsElems : List PyVal → String
  | [] => ""
  | [x] => dumps x
  | x :: y :: rest => dumps x ++ ", " ++ dumpsElems (y :: rest)

/-- Comma-separated serialization of JSON object members. -/
def dumpsMembers : List (String × PyVal) → String
  | [] => ""
  | [kv] => dumpsStr kv.1 ++ ": " ++ dumps kv.2
  | kv :: kv2 :: rest =>
      dumpsStr kv.1 ++ ": " ++ dumps kv.2 ++ ", " ++ dumpsMembers (kv2 :: rest)

end

/-- One `self.add_issue(score, issue, item, notes=...)` emission: severity
score, issue tag and the serialized-statement notes.  The subject item is
the same for every emission of one run and is kept implicit. -/
structure Issue where
  score : Nat
  tag : String
  notes : String
deriving Repr, DecidableEq

/-- Result of running one check: the ordered `add_issue` emissions made
before any exception, and the exception that escaped, if any. -/
abbrev CheckResult := List Issue × Option String

/-- Inner `check_statement` of `check_star_assume_role_policy`: flags a
statement with `Action == "sts:AssumeRole"`, `Effect == "Allow"` and a
dict principal whose `AWS` value is `"*"` or a list, once per `"*"`
entry of the list.  A non-dict statement raises `AttributeError` at the
first `.get`. -/
def check_statement_star (i_am_singular : String) (statement : PyVal) : CheckResult :=
  let tag := i_am_singular ++ " allows assume-role from anyone"
  match statement with
  | .dict kvs =>
    let action := dictGet kvs "Action" .none
    if action.truthy && pyEqStr action "sts:AssumeRole" then
      let effect := dictGet kvs "Effect" .none
      if effect.truthy && pyEqStr effect "Allow" then
        let principal := dictGet kvs "Principal" .none
        if !principal.truthy then ([], Option.none)
        else
          match principal with
          | .dict pkvs =>
            let aws := dictGet pkvs "AWS" .none
            if aws.truthy && pyEqStr aws "*" then
              ([⟨10, tag, dumps statement⟩], Option.none)
            else if aws.truthy && aws.isList then
              match aws with
              | .list entries =>
                ((entries.filter (fun e => pyEqStr e "*")).map
                  (fun _ => ⟨10, tag, dumps statement⟩), Option.none)
              | _ => ([], Option.none)
            else ([], Option.none)
          | _ => ([], Option.none)
      else ([], Option.none)
    else ([], Option.none)
  | _ => ([], Option.some "AttributeError: object has no attribute get")

/-- Run a per-statement check over the normalized statement sequence,
concatenating emissions and stopping at the first escaping exception
(emissions made before it are kept, as the collector is mutable). -/
def runStatements (f : PyVal → CheckResult) : List PyVal → CheckResult
  | [] => ([], Option.none)
  | s :: rest =>
    match f s with
    | (is, Option.some e) => (is, Option.some e)
    | (is, Option.none) =>
      let (is2, e2) := runStatements f rest
      (is ++ is2, e2)

/-- `IAMRoleAuditor.check_star_assume_role_policy`, as a function of the
subject item's `config` mapping: reads `AssumeRolePolicyDocument` (default
`{}`), its `Statement` (default `[]`), wraps a single dict statement into
a one-element list, and runs `check_statement` on each statement. -/
def check_star_assume_role_policy (i_am_singular : String) (config : PyVal) : CheckResult :=
  match config.get "AssumeRolePolicyDocument" (.dict []) with
  | .error e => ([], Option.some e)
  | .ok assume_role_policy =>
    match assume_role_policy.get "Statement" (.list []) with
    | .error e => ([], Option.some e)
    | .ok statement =>
      let statement := if statement.isDict then PyVal.list [statement] else statement
      match pyIter statement with
      | .error e => ([], Option.some e)
      | .ok stmts => runStatements (check_statement_star i_am_singular) stmts

/-- Modelled from the spec: `security_monkey.common.arn.ARN`, the
Resource-Name Parser, whose source is not part of this fragment.  Per the
spec it always returns a value carrying its own validity: an `error` flag
and the `account_number` field, left empty when parsing fails. -/
structure ARN where
  error : Bool
  account_number : String
deriving Repr, DecidableEq

/-- Split a character list at `':'` separators, keeping empty fields,
with Python `str.split(":")` semantics. -/
def splitColonAux : List Char → List Char → List String
  | [], acc => [String.mk acc.reverse]
  | c :: cs, acc =>
    if c = ':' then String.mk acc.reverse :: splitColonAux cs []
    else splitColonAux cs (c :: acc)

/-- The colon-separated fields of a resource-name string. -/
def arnFields (s : String) : List String :=
  splitColonAux s.data []

/-- Modelled from the spec: `ARN(input)` decomposes a resource-name string
`arn:partition:service:region:account:resource` into its fields; on
malformed input (a non-string, or a string not matching the grammar) it
sets the `error` flag and leaves `account_number` empty, and never
raises. -/
def arnParse (input : PyVal) : ARN :=
  match input with
  | .str s =>
    let parts := arnFields s
    if parts.length ≥ 6 && parts.headD "" == "arn" then
      { error := false, account_number := parts.getD 4 "" }
    else
      { error := true, account_number := "" }
  | _ => { error := true, account_number := "" }

/-- The Account Registry snapshot: the set of known account identifiers,
standing for `Account.query.filter(Account.identifier == x).first()`
returning a row exactly when `x` is a member. -/
abbrev Registry := List String

/-- Inner `check_account_in_arn` of `check_assume_role_from_unknown_account`:
parses one `Principal.AWS` entry; a parse failure is only logged; a parsed
account number that is missing from the registry yields one severity-10
issue naming the unknown account, with the serialized statement as
notes. -/
def check_account_in_arn (registry : Registry) (statement : PyVal) (input : PyVal) :
    List Issue :=
  let arn := arnParse input
  if !arn.error && !arn.account_number.isEmpty then
    if registry.contains arn.account_number then []
    else
      [⟨10,
        "IAM Role allows assume-role from an " ++
          "Unknown Account (" ++ arn.account_number ++ ")",
        dumps statement⟩]
  else []

/-- Inner `check_statement` of `check_assume_role_from_unknown_account`:
for a statement with `Action == "sts:AssumeRole"` and `Effect == "Allow"`
and a dict principal, runs `check_account_in_arn` on every entry of a
list-valued `AWS` principal, or on the single truthy value.  A non-dict
statement raises `AttributeError` at the first `.get`. -/
def check_statement_unknown (registry : Registry) (statement : PyVal) : CheckResult :=
  match statement with
  | .dict kvs =>
    let action := dictGet kvs "Action" .none
    if action.truthy && pyEqStr action "sts:AssumeRole" then
      let effect := dictGet kvs "Effect" .none
      if effect.truthy && pyEqStr effect "Allow" then
        let principal := dictGet kvs "Principal" .none
        if !principal.truthy then ([], Option.none)
        else
          match principal with
          | .dict pkvs =>
            let aws := dictGet pkvs "AWS" .none
            if aws.truthy && aws.isList then
              match aws with
              | .list entries =>
                (entries.flatMap (check_account_in_arn registry statement), Option.none)
              | _ => ([], Option.none)
            else if aws.truthy then
              (check_account_in_arn registry statement aws, Option.none)
            else ([], Option.none)
          | _ => ([], Option.none)
      else ([], Option.none)
    else ([], Option.none)
  | _ => ([], Option.some "AttributeError: object has no attribute get")

/-- `IAMRoleAuditor.check_assume_role_from_unknown_account`, as a function
of the registry snapshot and the subject item's `config` mapping: same
document traversal as `check_star_assume_role_policy`, running the
unknown-account statement check. -/
def check_assume_role_from_unknown_account (registry : Registry) (config : PyVal) :
    CheckResult :=
  match config.get "AssumeRolePolicyDocument" (.dict []) with
  | .error e => ([], Option.some e)
  | .ok assume_role_policy =>
    match assume_role_policy.get "Statement" (.list []) with
    | .error e => ([], Option.some e)
    | .ok statement =>
      let statement := if statement.isDict then PyVal.list [statement] else statement
      match pyIter statement with
      | .error e => ([], Option.some e)
      | .ok stmts => runStatements (check_statement_unknown registry) stmts

/-- The subject `ConfigItem`: its raw `config` mapping and its mutable
issue list, the only two fields the trust-policy predicates touch. -/
structure ConfigItem where
  config : PyVal
  audit_issues : List Issue

/-- Modelled from the spec: the Issue Collector append behind
`self.add_issue` (defined in the base `Auditor`, outside this fragment):
`add` is idempotent on an identical (severity, tag, notes) finding and
otherwise appends in first-seen order. -/
def collectorAdd (issues : List Issue) (i : Issue) : List Issue :=
  if issues.contains i then issues else issues ++ [i]

/-- Folding a run's ordered emissions into the collector state. -/
def collectorAddAll (issues : List Issue) (emitted : List Issue) : List Issue :=
  emitted.foldl collectorAdd issues

/-- One audit step running `check_star_assume_role_policy` on a subject
item: the emissions land in the item's issue list through the collector;
no other field is written. -/
def runCheckStar (i_am_singular : String) (item : ConfigItem) : ConfigItem :=
  { item with
    audit_issues :=
      collectorAddAll item.audit_issues (check_star_assume_role_policy i_am_singular item.config).1 }

/-- One audit step running `check_assume_role_from_unknown_account` on a
subject item, analogous to `runCheckStar`. -/
def runCheckUnknown (registry : Registry) (item : ConfigItem) : ConfigItem :=
  { item with
    audit_issues :=
      collectorAddAll item.audit_issues
        (check_assume_role_from_unknown_account registry item.config).1 }

/-! ### Characterizations of the per-statement checks -/

/-- The wildcard-trust issue emitted for a statement. -/
def starIssue (i_am_singular : String) (statement : PyVal) : Issue :=
  ⟨10, i_am_singular ++ " allows assume-role from anyone", dumps statement⟩

/-- Number of wildcard-trust emissions `check_statement_star` makes for a
dict statement: one for a `"*"` string principal, one per `"*"` entry of a
list principal. -/
def starIssueCount (kvs : List (String × PyVal)) : Nat :=
  if pyEqStr (dictGet kvs "Action" .none) "sts:AssumeRole" &&
      pyEqStr (dictGet kvs "Effect" .none) "Allow" then
    match dictGet kvs "Principal" .none with
    | .dict pkvs =>
      match dictGet pkvs "AWS" .none with
      | .str s => if s == "*" then 1 else 0
      | .list es => es.countP (fun e => pyEqStr e "*")
      | _ => 0
    | _ => 0
  else 0

/-- The `Principal.AWS` entries the unknown-account check examines: every
element of a list value, the single value itself when truthy, nothing
otherwise. -/
def principalEntries (aws : PyVal) : List PyVal :=
  match aws with
  | .list es => es
  | v => if v.truthy then [v] else []

/-- Emissions of `check_statement_unknown` on a dict statement. -/
def unknownEmissions (registry : Registry) (kvs : List (String × PyVal)) : List Issue :=
  if pyEqStr (dictGet kvs "Action" .none) "sts:AssumeRole" &&
      pyEqStr (dictGet kvs "Effect" .none) "Allow" then
    match dictGet kvs "Principal" .none with
    | .dict pkvs =>
      (principalEntries (dictGet pkvs "AWS" .none)).flatMap
        (check_account_in_arn registry (.dict kvs))
    | _ => []
  else []

/-- The statement shape named by the spec's wildcard-trust rule:
`Action == "sts:AssumeRole"`, `Effect == "Allow"`, and a `Principal.AWS`
value that is the literal `"*"` or a list containing `"*"`. -/
def isStarTrustStatement (kvs : List (String × PyVal)) : Bool :=
  pyEqStr (dictGet kvs "Action" .none) "sts:AssumeRole" &&
  pyEqStr (dictGet kvs "Effect" .none) "Allow" &&
  (match dictGet kvs "Principal" .none with
   | .dict pkvs =>
     match dictGet pkvs "AWS" .none with
     | .str s => s == "*"
     | .list es => es.any (fun e => pyEqStr e "*")
     | _ => false
   | _ => false)

/-- A subject config whose trust policy has the given `Statement` value. -/
def mkTrustConfig (statement : PyVal) : PyVal :=
  .dict [("AssumeRolePolicyDocument", .dict [("Statement", statement)])]

/-- A wildcard-trust statement used to instantiate the claim theorems. -/
def starStmtKvs : List (String × PyVal) :=
  [("Action", .str "sts:AssumeRole"), ("Effect", .str "Allow"),
   ("Principal", .dict [("AWS", .str "*")])]

/-- A statement with a `Deny` effect, matching no trust rule. -/
def denyStmtKvs : List (String × PyVal) :=
  [("Action", .str "sts:AssumeRole"), ("Effect", .str "Deny"),
   ("Principal", .dict [("AWS", .str "*")])]

/-- Principal of the sample statement mixing one known and one unknown
trusted account. -/
def unknownPkvs : List (String × PyVal) :=
  [("AWS", .list [.str "arn:aws:iam::222222222222:root",
                  .str "arn:aws:iam::333333333333:root"])]

/-- Sample trust statement trusting accounts 222222222222 and
333333333333. -/
def unknownStmtKvs : List (String × PyVal) :=
  [("Action", .str "sts:AssumeRole"), ("Effect", .str "Allow"),
   ("Principal", .dict unknownPkvs)]

/-- The trust statement of claim C4: `Principal.AWS` is the list
`["*", "arn:aws:iam::111111111111:root"]`. -/
def starListStmtKvs : List (String × PyVal) :=
  [("Action", .str "sts:AssumeRole"), ("Effect", .str "Allow"),
   ("Principal", .dict [("AWS", .list [.str "*",
     .str "arn:aws:iam::111111111111:root"])])]

/-- A qualifying statement whose `Principal` is the bare string `"*"`. -/
def bareStarStmtKvs : List (String × PyVal) :=
  [("Action", .str "sts:AssumeRole"), ("Effect", .str "Allow"),
   ("Principal", .str "*")]

/-- A qualifying statement whose `Principal` is the number 7 (a non-dict,
non-string shape). -/
def intPrincipalStmtKvs : List (String × PyVal) :=
  [("Action", .str "sts:AssumeRole"), ("Effect", .str "Allow"),
   ("Principal", .int 7)]

/-- A statement whose `Action` is the one-element list
`["sts:AssumeRole"]` instead of the bare string. -/
def listActionStmtKvs : List (String × PyVal) :=
  [("Action", .list [.str "sts:AssumeRole"]), ("Effect", .str "Allow"),
   ("Principal", .dict [("AWS", .str "*")])]

theorem check_statement_star_eq (sing : String) (kvs : List (String × PyVal)) :
    check_statement_star sing (.dict kvs) =
      (List.replicate (starIssueCount kvs) (starIssue sing (.dict kvs)), Option.none) := by
  simp only [check_statement_star, starIssueCount, starIssue]
  cases hA : dictGet kvs "Action" .none with
  | str sA =>
    by_cases hsA : sA = "sts:AssumeRole"
    · subst hsA
      simp only [pyEqStr, PyVal.truthy, show ("sts:AssumeRole".isEmpty = false) from rfl,
        show (("sts:AssumeRole" == "sts:AssumeRole") = true) from rfl, Bool.not_false,
        Bool.and_self, if_true]
      cases hE : dictGet kvs "Effect" .none with
      | str sE =>
        by_cases hsE : sE = "Allow"
        · subst hsE
          simp only [show ("Allow".isEmpty = false) from rfl,
            show (("Allow" == "Allow") = true) from rfl, Bool.not_false, Bool.and_self, if_true]
          cases hP : dictGet kvs "Principal" .none with
          | dict pkvs =>
            by_cases hpk : pkvs.isEmpty
            · simp only [PyVal.truthy, hpk, Bool.not_true, Bool.not_false, if_true]
              rw [List.isEmpty_iff] at hpk
              subst hpk
              simp [dictGet, alistFind]
            · simp only [PyVal.truthy, hpk, Bool.not_false, Bool.not_true, if_false]
              cases hW : dictGet pkvs "AWS" .none with
              | str sW =>
                by_cases hsW : sW = "*"
                · subst hsW
                  simp [pyEqStr, PyVal.truthy, PyVal.isList,
                    show ("*".isEmpty = false) from rfl]
                · simp [pyEqStr, PyVal.truthy, PyVal.isList, hsW]
              | list es =>
                cases es with
                | nil => simp [pyEqStr, PyVal.truthy, PyVal.isList]
                | cons e es =>
                  simp [pyEqStr, PyVal.truthy, PyVal.isList, List.map_const',
                    List.countP_eq_length_filter]
              | none => simp [pyEqStr, PyVal.truthy, PyVal.isList]
              | bool b => cases b <;> simp [pyEqStr, PyVal.truthy, PyVal.isList]
              | int n => by_cases hn : n = 0 <;> simp [pyEqStr, PyVal.truthy, PyVal.isList, hn]
              | dict d => simp [pyEqStr, PyVal.truthy, PyVal.isList]
          | none => simp [PyVal.truthy]
          | bool b => cases b <;> simp [PyVal.truthy]
          | int n => by_cases hn : n = 0 <;> simp [PyVal.truthy, hn]
          | str s => by_cases hs : s.isEmpty <;> simp [PyVal.truthy, hs]
          | list l => by_cases hl : l.isEmpty <;> simp [PyVal.truthy, hl]
        · simp [pyEqStr, hsE]
      | none => simp [pyEqStr, PyVal.truthy]
      | bool b => simp [pyEqStr]
      | int n => simp [pyEqStr]
      | list l => simp [pyEqStr]
      | dict d => simp [pyEqStr]
    · simp [pyEqStr, hsA]
  | none => simp [pyEqStr, PyVal.truthy]
  | bool b => simp [pyEqStr]
  | int n => simp [pyEqStr]
  | list l => simp [pyEqStr]
  | dict d => simp [pyEqStr]

theorem check_statement_unknown_eq (registry : Registry) (kvs : List (String × PyVal)) :
    check_statement_unknown registry (.dict kvs) =
      (unknownEmissions registry kvs, Option.none) := by
  simp only [check_statement_unknown, unknownEmissions, principalEntries]
  cases hA : dictGet kvs "Action" .none with
  | str sA =>
    by_cases hsA : sA = "sts:AssumeRole"
    · subst hsA
      simp only [pyEqStr, PyVal.truthy, show ("sts:AssumeRole".isEmpty = false) from rfl,
        show (("sts:AssumeRole" == "sts:AssumeRole") = true) from rfl, Bool.not_false,
        Bool.and_self, if_true]
      cases hE : dictGet kvs "Effect" .none with
      | str sE =>
        by_cases hsE : sE = "Allow"
        · subst hsE
          simp only [show ("Allow".isEmpty = false) from rfl,
            show (("Allow" == "Allow") = true) from rfl, Bool.not_false, Bool.and_self, if_true]
          cases hP : dictGet kvs "Principal" .none with
          | dict pkvs =>
            by_cases hpk : pkvs.isEmpty
            · simp only [PyVal.truthy, hpk, Bool.not_true, Bool.not_false, if_true]
              rw [List.isEmpty_iff] at hpk
              subst hpk
              simp [dictGet, alistFind, PyVal.truthy]
            · simp only [PyVal.truthy, hpk, Bool.not_false, Bool.not_true, if_false]
              cases hW : dictGet pkvs "AWS" .none with
              | str sW =>
                by_cases hsW : sW.isEmpty <;>
                  simp [pyEqStr, PyVal.truthy, PyVal.isList, hsW]
              | list es =>
                cases es with
                | nil => simp [pyEqStr, PyVal.truthy, PyVal.isList]
                | cons e es => simp [pyEqStr, PyVal.truthy, PyVal.isList]
              | none => simp [pyEqStr, PyVal.truthy, PyVal.isList]
              | bool b => cases b <;> simp [pyEqStr, PyVal.truthy, PyVal.isList]
              | int n => by_cases hn : n = 0 <;> simp [pyEqStr, PyVal.truthy, PyVal.isList, hn]
              | dict d =>
                by_cases hd : d.isEmpty <;> simp [pyEqStr, PyVal.truthy, PyVal.isList, hd]
          | none => simp [PyVal.truthy]
          | bool b => cases b <;> simp [PyVal.truthy]
          | int n => by_cases hn : n = 0 <;> simp [PyVal.truthy, hn]
          | str s => by_cases hs : s.isEmpty <;> simp [PyVal.truthy, hs]
          | list l => by_cases hl : l.isEmpty <;> simp [PyVal.truthy, hl]
        · simp [pyEqStr, hsE]
      | none => simp [pyEqStr, PyVal.truthy]
      | bool b => simp [pyEqStr]
      | int n => simp [pyEqStr]
      | list l => simp [pyEqStr]
      | dict d => simp [pyEqStr]
    · simp [pyEqStr, hsA]
  | none => simp [pyEqStr, PyVal.truthy]
  | bool b => simp [pyEqStr]
  | int n => simp [pyEqStr]
  | list l => simp [pyEqStr]
  | dict d => simp [pyEqStr]

/-! ### Claim theorems -/

theorem starIssueCount_pos_iff (kvs : List (String × PyVal)) :
    0 < starIssueCount kvs ↔ isStarTrustStatement kvs = true := by
  simp only [starIssueCount, isStarTrustStatement]
  by_cases hA : pyEqStr (dictGet kvs "Action" .none) "sts:AssumeRole" = true
  · by_cases hE : pyEqStr (dictGet kvs "Effect" .none) "Allow" = true
    · simp only [hA, hE, Bool.and_self, Bool.true_and, if_true]
      generalize dictGet kvs "Principal" PyVal.none = p
      cases p with
      | dict pkvs =>
        cases hW : dictGet pkvs "AWS" PyVal.none with
        | str s => by_cases hs : s = "*" <;> simp [hW, hs]
        | list es => simp [hW, List.countP_pos_iff, List.any_eq_true]
        | none => simp [hW]
        | bool b => simp [hW]
        | int n => simp [hW]
        | dict d => simp [hW]
      | none => simp
      | bool b => simp
      | int n => simp
      | str s => simp
      | list l => simp
    · simp [hA, hE]
  · simp [hA]

/-- Claim C1: for every statement of the role's trust policy with
`Action == "sts:AssumeRole"` and `Effect == "Allow"` whose `Principal.AWS`
is the literal `"*"` or a list containing `"*"`, `check_statement_star`
(the per-statement body of `check_star_assume_role_policy`) emits an
issue, every emission has severity 10, tag
`"<i_am_singular> allows assume-role from anyone"` and the JSON-serialized
statement as notes; a statement not of that shape yields no emission. -/
theorem star_policy_flags_exactly_wildcard_trust (sing : String)
    (kvs : List (String × PyVal)) :
    ((check_statement_star sing (.dict kvs)).1 ≠ [] ↔ isStarTrustStatement kvs = true) ∧
    (∀ i ∈ (check_statement_star sing (.dict kvs)).1,
      i = ⟨10, sing ++ " allows assume-role from anyone", dumps (.dict kvs)⟩) ∧
    (check_statement_star sing (.dict kvs)).2 = Option.none := by
  rw [check_statement_star_eq]
  refine ⟨?_, ?_, rfl⟩
  · rw [← starIssueCount_pos_iff]
    simp [List.replicate_eq_nil_iff, Nat.pos_iff_ne_zero]
  · intro i hi
    have := List.eq_of_mem_replicate hi
    simpa [starIssue] using this

theorem star_policy_flags_exactly_wildcard_trust_witness :
    (check_statement_star "IAM Role" (.dict starStmtKvs)).1 ≠ [] ∧
    (check_statement_star "IAM Role" (.dict denyStmtKvs)).1 = [] := by
  constructor
  · exact (star_policy_flags_exactly_wildcard_trust "IAM Role" starStmtKvs).1.mpr (by decide)
  · by_contra hne
    exact absurd
      ((star_policy_flags_exactly_wildcard_trust "IAM Role" denyStmtKvs).1.mp hne)
      (by decide)

/-- Claim C2: for a trust statement with `Action == "sts:AssumeRole"`,
`Effect == "Allow"` and a dict principal, `check_statement_unknown` (the
per-statement body of `check_assume_role_from_unknown_account`) evaluates
`check_account_in_arn` on every entry under `Principal.AWS` (each list
element, or the single truthy value) and raises nothing; an entry whose
parse fails produces no issue (the remaining entries still being folded
in), and an entry parsing to an account number absent from the registry
produces one severity-10 issue naming that account, with the serialized
statement as notes; an entry whose account is in the registry produces
none. -/
theorem unknown_account_check_per_entry (registry : Registry)
    (kvs pkvs : List (String × PyVal))
    (hA : dictGet kvs "Action" .none = .str "sts:AssumeRole")
    (hE : dictGet kvs "Effect" .none = .str "Allow")
    (hP : dictGet kvs "Principal" .none = .dict pkvs) :
    check_statement_unknown registry (.dict kvs) =
      ((principalEntries (dictGet pkvs "AWS" .none)).flatMap
        (check_account_in_arn registry (.dict kvs)), Option.none) ∧
    (∀ e, (arnParse e).error = true → check_account_in_arn registry (.dict kvs) e = []) ∧
    (∀ e, (arnParse e).error = false → (arnParse e).account_number ≠ "" →
      (arnParse e).account_number ∉ registry →
      check_account_in_arn registry (.dict kvs) e =
        [⟨10,
          "IAM Role allows assume-role from an " ++
            "Unknown Account (" ++ (arnParse e).account_number ++ ")",
          dumps (.dict kvs)⟩]) ∧
    (∀ e, (arnParse e).account_number ∈ registry →
      check_account_in_arn registry (.dict kvs) e = []) := by
  refine ⟨?_, ?_, ?_, ?_⟩
  · rw [check_statement_unknown_eq]
    simp [unknownEmissions, hA, hE, hP, pyEqStr]
  · intro e herr
    simp [check_account_in_arn, herr]
  · intro e herr hne hmem
    simp [check_account_in_arn, herr, hne, hmem, String.isEmpty_iff]
  · intro e hmem
    simp [check_account_in_arn, hmem]

theorem unknown_account_check_per_entry_witness :
    check_statement_unknown ["222222222222"] (.dict unknownStmtKvs) =
      ((principalEntries (dictGet unknownPkvs "AWS" .none)).flatMap
        (check_account_in_arn ["222222222222"] (.dict unknownStmtKvs)), Option.none) :=
  (unknown_account_check_per_entry ["222222222222"] unknownStmtKvs unknownPkvs
    rfl rfl rfl).1

/-- Claim C4: for a qualifying trust statement whose `Principal.AWS` is
`["*", "arn:aws:iam::111111111111:root"]`, `check_star_assume_role_policy`
emits exactly one wildcard-trust issue for the statement — one per `"*"`
entry, not one per list entry. -/
theorem star_policy_one_issue_for_star_in_list :
    check_star_assume_role_policy "IAM Role"
      (.dict [("AssumeRolePolicyDocument",
        .dict [("Statement", .list [.dict starListStmtKvs])])]) =
      ([⟨10, "IAM Role allows assume-role from anyone",
          dumps (.dict starListStmtKvs)⟩], Option.none) := by
  rfl

/-- Claim C5: with a registry containing `222222222222` but not
`333333333333` and a trust statement listing both accounts,
`check_assume_role_from_unknown_account` raises exactly one issue, tagged
with the unknown account `333333333333`; no issue references
`222222222222`. -/
theorem unknown_account_flags_only_missing_account :
    check_assume_role_from_unknown_account ["222222222222"]
      (.dict [("AssumeRolePolicyDocument",
        .dict [("Statement", .list [.dict unknownStmtKvs])])]) =
      ([⟨10, "IAM Role allows assume-role from an Unknown Account (333333333333)",
          dumps (.dict unknownStmtKvs)⟩], Option.none) := by
  rfl

/-- Claim C3 counterexample: for a trust policy whose `Statement` is the
number 5 (neither a dict nor a list), both trust-policy predicates raise
`TypeError` to the caller instead of treating the input as matching
nothing. -/
theorem trust_checks_raise_on_int_statement :
    (check_star_assume_role_policy "IAM Role" (mkTrustConfig (.int 5))).2 ≠ Option.none ∧
    (check_assume_role_from_unknown_account [] (mkTrustConfig (.int 5))).2 ≠ Option.none := by
  exact ⟨by decide, by decide⟩

/-- Claim C3 amended: for every principal value that is not a dict, both
trust-policy predicates add no issue and raise no exception; but a
`Statement` value that is neither a dict nor a list is iterated rather
than treated as empty: an integer `Statement` raises `TypeError` (not
iterable), a non-empty-string `Statement` raises `AttributeError` (its
character elements have no `.get`), and only an empty-string `Statement`
yields no issues and no exception. -/
theorem trust_checks_on_malformed_shapes (sing : String) (registry : Registry)
    (kvs : List (String × PyVal))
    (hP : (dictGet kvs "Principal" .none).isDict = false) :
    check_statement_star sing (.dict kvs) = ([], Option.none) ∧
    check_statement_unknown registry (.dict kvs) = ([], Option.none) ∧
    (∀ n : Int,
      (check_star_assume_role_policy sing (mkTrustConfig (.int n))).2 =
        Option.some "TypeError: object is not iterable" ∧
      (check_assume_role_from_unknown_account registry (mkTrustConfig (.int n))).2 =
        Option.some "TypeError: object is not iterable") ∧
    (∀ s : String, s ≠ "" →
      (check_star_assume_role_policy sing (mkTrustConfig (.str s))).2 =
        Option.some "AttributeError: object has no attribute get" ∧
      (check_assume_role_from_unknown_account registry (mkTrustConfig (.str s))).2 =
        Option.some "AttributeError: object has no attribute get") ∧
    check_star_assume_role_policy sing (mkTrustConfig (.str "")) = ([], Option.none) ∧
    check_assume_role_from_unknown_account registry (mkTrustConfig (.str "")) =
      ([], Option.none) := by
  refine ⟨?_, ?_, fun n => ⟨rfl, rfl⟩, ?_, rfl, rfl⟩
  · rw [check_statement_star_eq]
    suffices h : starIssueCount kvs = 0 by simp [h]
    unfold starIssueCount
    split
    · cases hp : dictGet kvs "Principal" PyVal.none with
      | dict pkvs => rw [hp] at hP; simp [PyVal.isDict] at hP
      | none => rfl
      | bool b => rfl
      | int n => rfl
      | str s => rfl
      | list l => rfl
    · rfl
  · rw [check_statement_unknown_eq]
    suffices h : unknownEmissions registry kvs = [] by simp [h]
    unfold unknownEmissions
    split
    · cases hp : dictGet kvs "Principal" PyVal.none with
      | dict pkvs => rw [hp] at hP; simp [PyVal.isDict] at hP
      | none => rfl
      | bool b => rfl
      | int n => rfl
      | str s => rfl
      | list l => rfl
    · rfl
  · intro s hs
    cases s with
    | mk data =>
      cases data with
      | nil => exact absurd rfl hs
      | cons c cs => exact ⟨rfl, rfl⟩

theorem trust_checks_on_malformed_shapes_witness :
    check_statement_star "IAM Role" (.dict intPrincipalStmtKvs) = ([], Option.none) :=
  (trust_checks_on_malformed_shapes "IAM Role" [] intPrincipalStmtKvs (by decide)).1

/-- Claim C6: for every trust policy whose `Statement` field is a single
statement object, each trust-policy predicate produces exactly the same
result as for the equivalent policy whose `Statement` is the one-element
list of that object, whatever other fields the document or the config
carry. -/
theorem statement_normalization_equiv (sing : String) (registry : Registry)
    (s docRest cfgRest : List (String × PyVal)) :
    check_star_assume_role_policy sing
        (.dict (("AssumeRolePolicyDocument",
          PyVal.dict (("Statement", PyVal.dict s) :: docRest)) :: cfgRest)) =
      check_star_assume_role_policy sing
        (.dict (("AssumeRolePolicyDocument",
          PyVal.dict (("Statement", PyVal.list [PyVal.dict s]) :: docRest)) :: cfgRest)) ∧
    check_assume_role_from_unknown_account registry
        (.dict (("AssumeRolePolicyDocument",
          PyVal.dict (("Statement", PyVal.dict s) :: docRest)) :: cfgRest)) =
      check_assume_role_from_unknown_account registry
        (.dict (("AssumeRolePolicyDocument",
          PyVal.dict (("Statement", PyVal.list [PyVal.dict s]) :: docRest)) :: cfgRest)) :=
  ⟨rfl, rfl⟩

/-- Claim C7: a qualifying trust statement whose `Principal` is the bare
string `"*"` (not a mapping) is not flagged by the wildcard-trust check,
which only inspects the `AWS` key of a dict-shaped principal. -/
theorem star_check_ignores_bare_star_principal (sing : String)
    (kvs : List (String × PyVal))
    (hA : dictGet kvs "Action" .none = .str "sts:AssumeRole")
    (hE : dictGet kvs "Effect" .none = .str "Allow")
    (hP : dictGet kvs "Principal" .none = .str "*") :
    check_statement_star sing (.dict kvs) = ([], Option.none) := by
  rw [check_statement_star_eq]
  suffices h : starIssueCount kvs = 0 by simp [h]
  simp [starIssueCount, hP]

theorem star_check_ignores_bare_star_principal_witness :
    check_statement_star "IAM Role" (.dict bareStarStmtKvs) = ([], Option.none) :=
  star_check_ignores_bare_star_principal "IAM Role" bareStarStmtKvs rfl rfl rfl

/-- Claim C8: a trust statement whose `Action` is a list (for example
`["sts:AssumeRole"]`) is skipped by both trust-policy predicates, which
compare `Action` with the string `"sts:AssumeRole"` by equality only. -/
theorem trust_checks_skip_list_action (sing : String) (registry : Registry)
    (kvs : List (String × PyVal)) (xs : List PyVal)
    (hA : dictGet kvs "Action" .none = .list xs) :
    check_statement_star sing (.dict kvs) = ([], Option.none) ∧
    check_statement_unknown registry (.dict kvs) = ([], Option.none) := by
  constructor
  · rw [check_statement_star_eq]
    suffices h : starIssueCount kvs = 0 by simp [h]
    simp [starIssueCount, hA, pyEqStr]
  · rw [check_statement_unknown_eq]
    suffices h : unknownEmissions registry kvs = [] by simp [h]
    simp [unknownEmissions, hA, pyEqStr]

theorem trust_checks_skip_list_action_witness :
    check_statement_star "IAM Role" (.dict listActionStmtKvs) = ([], Option.none) ∧
    check_statement_unknown [] (.dict listActionStmtKvs) = ([], Option.none) :=
  trust_checks_skip_list_action "IAM Role" [] listActionStmtKvs
    [.str "sts:AssumeRole"] rfl

theorem collectorAddAll_extends :
    ∀ (emitted base : List Issue), ∃ t, collectorAddAll base emitted = base ++ t
  | [], base => ⟨[], by simp [collectorAddAll]⟩
  | i :: em, base => by
    obtain ⟨t, ht⟩ := collectorAddAll_extends em (collectorAdd base i)
    have hstep : collectorAddAll base (i :: em) = collectorAddAll (collectorAdd base i) em := rfl
    by_cases hm : i ∈ base
    · refine ⟨t, ?_⟩
      rw [hstep, ht]
      simp [collectorAdd, hm]
    · refine ⟨i :: t, ?_⟩
      rw [hstep, ht]
      simp [collectorAdd, hm]

/-- Claim C9: neither predicate writes to the subject item other than
appending issues through the collector: the item's `config` is unchanged
by a run of either check, and the issue list only grows at its end. -/
theorem trust_checks_frame_condition (sing : String) (registry : Registry)
    (item : ConfigItem) :
    (runCheckStar sing item).config = item.config ∧
    (runCheckUnknown registry item).config = item.config ∧
    (∃ t, (runCheckStar sing item).audit_issues = item.audit_issues ++ t) ∧
    (∃ t, (runCheckUnknown registry item).audit_issues = item.audit_issues ++ t) :=
  ⟨rfl, rfl, collectorAddAll_extends _ _, collectorAddAll_extends _ _⟩

/-- Claim C10: the trust-policy predicates are deterministic — two runs
over equal subject configurations and equal registry snapshots produce
equal results, as both checks are pure functions of those two inputs. -/
theorem trust_checks_deterministic (sing : String) (cfg1 cfg2 : PyVal)
    (reg1 reg2 : Registry) (hc : cfg1 = cfg2) (hr : reg1 = reg2) :
    check_star_assume_role_policy sing cfg1 = check_star_assume_role_policy sing cfg2 ∧
    check_assume_role_from_unknown_account reg1 cfg1 =
      check_assume_role_from_unknown_account reg2 cfg2 := by
  subst hc
  subst hr
  exact ⟨rfl, rfl⟩

theorem trust_checks_deterministic_witness :
    check_star_assume_role_policy "IAM Role" (mkTrustConfig (.list [.dict starStmtKvs])) =
      check_star_assume_role_policy "IAM Role" (mkTrustConfig (.list [.dict starStmtKvs])) ∧
    check_assume_role_from_unknown_account ["222222222222"]
        (mkTrustConfig (.list [.dict starStmtKvs])) =
      check_assume_role_from_unknown_account ["222222222222"]
        (mkTrustConfig (.list [.dict starStmtKvs])) :=
  trust_checks_deterministic "IAM Role" (mkTrustConfig (.list [.dict starStmtKvs]))
    (mkTrustConfig (.list [.dict starStmtKvs])) ["222222222222"] ["222222222222"] rfl rfl

end SecurityMonkey
